import Mathlib

/-!
Verification development for the fluxy terminal UI (a FLUX image-generation TUI).

The definitions below are a shallow embedding of the Go source:

* the generation job driver `generateImageRun` embeds `generateImage` (the
  credential check, the per-variant request construction, the submit/poll/fetch
  protocol); network interaction is represented by an explicit `Oracle` of
  responses and the performed calls are returned as a `NetEvent` list;
* `marshalInput` embeds Go's `json.Marshal` of the `Input` struct: every field
  carries the `omitempty` option, so zero values are dropped, and fields are
  emitted in struct declaration order;
* `update` embeds the Bubble Tea `Update` method of the `newModel` program
  (window-size, key, mouse-click, image-bytes and error messages), returning the
  new model, the command value, and the synchronous terminal effects;
* `view` embeds the `View` method together with `viewImageWithControls` at the
  frame-description level (which panel, target image cell size, clear flag,
  positions); the external terminal queries (`termimg.QueryTerminalFeatures`)
  and the image decoder (`termimg.From`) are passed in as explicit arguments,
  since they are external collaborators of the core;
* `update5` embeds the `Update` method of the earlier `model` program (the
  version with the prompt string edited directly by key events).

Go `int` is modelled as `ℤ`; Go truncating integer division is `goDiv`
(`Int.tdiv`); the `float64` scaling arithmetic of the render code is modelled
exactly over `ℚ`, with Go's `int(...)` conversion as `goTrunc` (truncation
toward zero).  Byte slices are `Option (List ℕ)` so that Go's `nil` /
non-`nil`-but-empty distinction (`[]byte{}`) is preserved.
-/

namespace Fluxy

/-- Go integer division: truncation toward zero. -/
def goDiv (a b : ℤ) : ℤ := Int.tdiv a b

/-- Go `int(x)` conversion of a `float64`, modelled on `ℚ`: truncation toward
zero. -/
def goTrunc (q : ℚ) : ℤ := if 0 ≤ q then ⌊q⌋ else ⌈q⌉

/-- Configuration for the image generation (the `config` struct of the current
source version, holding the flag values). -/
structure Config where
  prompt : String
  apiToken : String
  fluxModel : String
  aspect : String
  outputFormat : String
  outputFolder : String
deriving DecidableEq, Repr

/-- The `Input` struct of `types.go`: the JSON request parameters.  Every field
has the `omitempty` JSON option.  `promptStrength` is a `float32` in Go,
modelled exactly as `ℚ`. -/
structure Input where
  seed : ℤ := 0
  steps : ℤ := 0
  prompt : String := ""
  guidance : ℤ := 0
  interval : ℤ := 0
  numOutputs : ℤ := 0
  aspect : String := ""
  outputFormat : String := ""
  outputQuality : ℤ := 0
  promptStrength : ℚ := 0
  numInferenceSteps : ℤ := 0
  disableSafetyChecker : Bool := false
  safetyTolerance : ℤ := 0
deriving DecidableEq, Repr

/-- A JSON value occurring in the marshalled request body. -/
inductive Jval where
  | str (s : String)
  | num (n : ℤ)
  | rat (q : ℚ)
  | boolean (b : Bool)
deriving DecidableEq, Repr

/-- Go `json.Marshal` applied to `Input`: fields are emitted in struct
declaration order, and a field whose value is the zero value of its type is
omitted (`omitempty`). -/
def marshalInput (i : Input) : List (String × Jval) :=
  (if i.seed = 0 then [] else [("seed", Jval.num i.seed)]) ++
  (if i.steps = 0 then [] else [("steps", Jval.num i.steps)]) ++
  (if i.prompt = "" then [] else [("prompt", Jval.str i.prompt)]) ++
  (if i.guidance = 0 then [] else [("guidance", Jval.num i.guidance)]) ++
  (if i.interval = 0 then [] else [("interval", Jval.num i.interval)]) ++
  (if i.numOutputs = 0 then [] else [("num_outputs", Jval.num i.numOutputs)]) ++
  (if i.aspect = "" then [] else [("aspect_ratio", Jval.str i.aspect)]) ++
  (if i.outputFormat = "" then [] else [("output_format", Jval.str i.outputFormat)]) ++
  (if i.outputQuality = 0 then [] else [("output_quality", Jval.num i.outputQuality)]) ++
  (if i.promptStrength = 0 then [] else [("prompt_strength", Jval.rat i.promptStrength)]) ++
  (if i.numInferenceSteps = 0 then [] else
    [("num_inference_steps", Jval.num i.numInferenceSteps)]) ++
  (if i.disableSafetyChecker = false then [] else
    [("disable_safety_checker", Jval.boolean i.disableSafetyChecker)]) ++
  (if i.safetyTolerance = 0 then [] else [("safety_tolerance", Jval.num i.safetyTolerance)])

def fluxSchnellURL : String :=
  "https://api.replicate.com/v1/models/black-forest-labs/flux-schnell/predictions"

def fluxProURL : String :=
  "https://api.replicate.com/v1/models/black-forest-labs/flux-1.1-pro-ultra/predictions"

def fluxDevURL : String :=
  "https://api.replicate.com/v1/models/black-forest-labs/flux-dev/predictions"

/-- The request that `generateImage` submits: the model-specific endpoint and
the marshalled `input` object of the JSON body (the body is the one-key object
wrapping these fields under "input"). -/
structure RequestSpec where
  url : String
  inputFields : List (String × Jval)
deriving DecidableEq, Repr

/-- Request construction inside `generateImage`: the shared fields
(prompt, aspect ratio, output format, output quality 100), then the
model-variant switch (schnell sets `disable_safety_checker`, pro sets
`safety_tolerance = 5`, dev sets neither; unknown variants are an error). -/
def buildRequest (prompt : String) (c : Config) : Except String RequestSpec :=
  let input0 : Input :=
    { prompt := prompt, aspect := c.aspect, outputFormat := c.outputFormat,
      outputQuality := 100 }
  match c.fluxModel with
  | "schnell" =>
      .ok ⟨fluxSchnellURL, marshalInput { input0 with disableSafetyChecker := true }⟩
  | "pro" =>
      .ok ⟨fluxProURL, marshalInput { input0 with safetyTolerance := 5 }⟩
  | "dev" =>
      .ok ⟨fluxDevURL, marshalInput input0⟩
  | s => .error ("invalid flux model: " ++ s)

/-- The `output` field of a Replicate API response (`any` in Go): either a
single URL string, a non-empty list of URLs (of which the code takes the first),
or something else (which the code rejects). -/
inductive OutputVal where
  | str (u : String)
  | arr (first : String)
  | other
deriving DecidableEq, Repr

/-- The parts of the Replicate `Response` struct that `generateImage` reads:
the job status, the error reason, the output value, and the self-referential
status URL `urls.get`. -/
structure RespModel where
  status : String
  errorStr : String
  output : OutputVal
  urlsGet : String
deriving DecidableEq, Repr

/-- A network interaction performed by the driver. -/
inductive NetEvent where
  | post (url : String) (inputFields : List (String × Jval))
  | sleep1
  | get (url : String)
deriving DecidableEq, Repr

/-- The network, seen from the driver: the response to the initial POST, the
response to the n-th status poll, and the bytes served by the final image GET. -/
structure Oracle where
  submit : RespModel
  poll : ℕ → RespModel
  fetch : String → List ℕ

/-- Responses seen by the driver: index 0 is the submit response, index `n+1`
is the response to the n-th poll. -/
def seqResp (o : Oracle) : ℕ → RespModel
  | 0 => o.submit
  | n + 1 => o.poll n

/-- Loop guard of the polling loop: `status != "succeeded" && status != "failed"`
keeps polling, so a status is terminal exactly when it is one of the two. -/
def isTerminalStatus (s : String) : Bool := s == "succeeded" || s == "failed"

/-- The polling loop, fuel-indexed (the Go loop is unbounded; `none` means the
fuel ran out with the status still non-terminal).  `i` is the number of polls
performed so far; the result carries the first terminal response together with
the total number of polls performed. -/
def pollLoopAux (polls : ℕ → RespModel) : ℕ → ℕ → RespModel → Option (RespModel × ℕ)
  | 0, i, r => if isTerminalStatus r.status then some (r, i) else none
  | fuel + 1, i, r =>
      if isTerminalStatus r.status then some (r, i)
      else pollLoopAux polls fuel (i + 1) (polls i)

/-- Response chain of the polling loop starting from response `r` with `i`
polls already performed. -/
def chainFrom (polls : ℕ → RespModel) : ℕ → RespModel → ℕ → RespModel
  | _, r, 0 => r
  | i, r, j + 1 =>
      let _ := r
      chainFrom polls (i + 1) (polls i) j

/-- The network events of the first `k` polls: each loop iteration sleeps one
time unit and then GETs the current response's `urls.get`. -/
def pollEvents (o : Oracle) : ℕ → List NetEvent
  | 0 => []
  | k + 1 => pollEvents o k ++ [NetEvent.sleep1, NetEvent.get (seqResp o k).urlsGet]

/-- Extraction of the output URL after a successful job: a string is used
directly, for a list the first element is used, anything else is an error. -/
def extractOutputURL : OutputVal → Except String String
  | .str u => .ok u
  | .arr u => .ok u
  | .other => .error "unexpected output type"

/-- What the driver resolves to. -/
inductive GenOutcome where
  | failure (msg : String)
  | imageBytes (data : List ℕ)
  | outOfFuel
deriving DecidableEq, Repr

/-- The full result of one driver run: the outcome, the number of status polls
performed, and the network calls made, in order. -/
structure RunResult where
  outcome : GenOutcome
  polls : ℕ
  events : List NetEvent
deriving Repr

/-- The generation job driver `generateImage` of the current source version:
credential resolution (the `--api-token` flag value takes precedence over the
`REPLICATE_API_KEY` environment variable, and an empty credential fails before
any network call), request construction, submit, the fixed-interval polling
loop, and the terminal-status handling (failed carries the remote reason;
succeeded fetches the output URL's bytes).  Transport and decode errors of the
external HTTP client are not modelled: the oracle always yields a well-formed
response. -/
def generateImageRun (prompt : String) (c : Config) (envKey : String) (o : Oracle)
    (fuel : ℕ) : RunResult :=
  let apiKey := if c.apiToken ≠ "" then c.apiToken else envKey
  if apiKey = "" then
    { outcome := .failure ("replicate API token not provided. " ++
        "Use --api-token flag or set REPLICATE_API_KEY environment variable"),
      polls := 0, events := [] }
  else
    match buildRequest prompt c with
    | .error e => { outcome := .failure e, polls := 0, events := [] }
    | .ok req =>
        let submitEv := NetEvent.post req.url req.inputFields
        match pollLoopAux o.poll fuel 0 o.submit with
        | none =>
            { outcome := .outOfFuel, polls := fuel,
              events := submitEv :: pollEvents o fuel }
        | some (r, k) =>
            let evs := submitEv :: pollEvents o k
            if r.status = "failed" then
              { outcome := .failure ("image generation failed: " ++ r.errorStr),
                polls := k, events := evs }
            else
              match extractOutputURL r.output with
              | .error e => { outcome := .failure e, polls := k, events := evs }
              | .ok u =>
                  { outcome := .imageBytes (o.fetch u), polls := k,
                    events := evs ++ [NetEvent.get u] }

/-- Go `%` (remainder, truncating convention). -/
def goMod (a b : ℤ) : ℤ := Int.tmod a b

/-- The `newModel` struct of the current source version: the single mutable
session state of the Bubble Tea program.  The external `textinput.Model` is
represented by its text value, the spinner carries no state the claims touch.
`imageData` distinguishes Go's `nil` slice (`none`) from a non-`nil` empty
slice (`some []`, as produced by `[]byte{}`). -/
structure NewModel where
  width : ℤ
  height : ℤ
  prompt : String
  imageData : Option (List ℕ)
  generating : Bool
  inputMode : Bool
  selectedBtn : ℤ
  textInputValue : String
  config : Config
  err : Option String
  imageRendered : Bool
  needsImageClear : Bool
  isRegenerating : Bool
deriving DecidableEq, Repr

/-- The Bubble Tea messages the `Update` method switches on: window-size
events, key events (identified by their `msg.String()`), left mouse clicks,
the job driver's image-bytes completion, its error completion, and any other
message (spinner ticks etc.). -/
inductive Msg where
  | windowSize (w h : ℤ)
  | key (s : String)
  | mouseClick (x y : ℤ) (leftButton : Bool)
  | imageBytes (b : List ℕ)
  | errMsg (e : String)
  | other
deriving DecidableEq, Repr

/-- Commands returned by `Update` (the `tea.Cmd` values): quit, clear-screen,
dispatching the generation job driver with a prompt and config, the spinner
tick, the opaque library commands of the text input/spinner update
(`passthrough`), and `tea.Batch`. -/
inductive Cmd where
  | none
  | quit
  | clearScreen
  | genImage (prompt : String) (c : Config)
  | spinnerTick
  | passthrough
  | batch (cs : List Cmd)

/-- Synchronous side effects performed inside `Update` itself:
`termimg.ClearAll()` and the disk write of `saveImage`. -/
inductive Effect where
  | clearAllImages
  | saveImageFile
deriving DecidableEq, Repr

/-- One step of the program: the next model, the returned command, and the
synchronous effects performed during the update. -/
structure Step where
  model : NewModel
  cmd : Cmd
  effects : List Effect

/-- Value behaviour of the external `bubbles` text input: a single-character
key is inserted, backspace deletes the last character, every other message
leaves the value unchanged. -/
def textInputValueUpdate (v : String) (msg : Msg) : String :=
  match msg with
  | .key s =>
      if s.length = 1 then v ++ s
      else if s = "backspace" then v.dropRight 1
      else v
  | _ => v

/-- The code after the message switch in `Update`: the text input is updated
only in input mode, the spinner always, and when generating the returned
command is the batch of both library commands. -/
def afterSwitch (m : NewModel) (msg : Msg) : Step :=
  let m1 := if m.inputMode then
    { m with textInputValue := textInputValueUpdate m.textInputValue msg } else m
  { model := m1,
    cmd := if m1.generating then Cmd.batch [Cmd.passthrough, Cmd.spinnerTick]
           else Cmd.passthrough,
    effects := [] }

/-- The `Update` method of `newModel`.  `saveErr` is the outcome of the
external `saveImage` disk write (`some e` = failure), relevant only to the
download action. -/
def update (saveErr : Option String) (m : NewModel) (msg : Msg) : Step :=
  match msg with
  | .windowSize w h =>
      afterSwitch
        { m with width := w, height := h, imageRendered := false,
                 needsImageClear := true } msg
  | .key s =>
      if s = "ctrl+c" ∨ s = "q" then
        { model := m, cmd := .quit, effects := [] }
      else if s = "enter" then
        if m.inputMode then
          let m1 := { m with prompt := m.textInputValue }
          if m1.prompt = "" then { model := m1, cmd := .none, effects := [] }
          else
            { model := { m1 with inputMode := false, generating := true },
              cmd := .batch [.genImage m1.prompt m.config, .spinnerTick],
              effects := [] }
        else if m.imageData ≠ none then
          if m.selectedBtn = 0 then
            { model := { m with imageData := some [], needsImageClear := true,
                                isRegenerating := true, generating := true },
              cmd := .batch [.clearScreen, .genImage m.prompt m.config, .spinnerTick],
              effects := [.clearAllImages] }
          else
            let m1 := match saveErr with
              | some e => { m with err := some e }
              | none => m
            { model := m1, cmd := .quit, effects := [.saveImageFile] }
        else afterSwitch m msg
      else if s = "left" ∨ s = "h" then
        afterSwitch
          (if ¬m.inputMode ∧ m.imageData ≠ none then { m with selectedBtn := 0 } else m) msg
      else if s = "right" ∨ s = "l" then
        afterSwitch
          (if ¬m.inputMode ∧ m.imageData ≠ none then { m with selectedBtn := 1 } else m) msg
      else if s = "tab" ∨ s = "j" ∨ s = "down" ∨ s = "k" ∨ s = "up" then
        afterSwitch
          (if ¬m.inputMode ∧ m.imageData ≠ none then
            { m with selectedBtn := goMod (m.selectedBtn + 1) 2 } else m) msg
      else afterSwitch m msg
  | .mouseClick x y leftButton =>
      if ¬m.inputMode ∧ m.imageData ≠ none ∧ leftButton then
        let controlsPanelTop := m.height - 8
        if y ≥ controlsPanelTop then
          let centerX := goDiv m.width 2
          let containerLeft := centerX - goDiv 40 2
          let containerRight := centerX + goDiv 40 2
          if x ≥ containerLeft ∧ x ≤ containerRight then
            if x < centerX then
              { model := { m with selectedBtn := 0, imageData := some [],
                                  needsImageClear := true, isRegenerating := true,
                                  generating := true },
                cmd := .batch [.clearScreen, .genImage m.prompt m.config, .spinnerTick],
                effects := [.clearAllImages] }
            else
              let m1 := { m with selectedBtn := 1 }
              let m2 := match saveErr with
                | some e => { m1 with err := some e }
                | none => m1
              { model := m2, cmd := .quit, effects := [.saveImageFile] }
          else afterSwitch m msg
        else afterSwitch m msg
      else afterSwitch m msg
  | .imageBytes b =>
      { model := { m with imageData := some b, generating := false,
                          needsImageClear := true, selectedBtn := 0 },
        cmd := .none, effects := [] }
  | .errMsg e =>
      { model := { m with err := some e, generating := false },
        cmd := .none, effects := [] }
  | .other => afterSwitch m msg

/-- The `newInitialModel` constructor: input mode and generating are decided by
whether a prompt was passed on the command line. -/
def newInitialModel (c : Config) : NewModel :=
  { width := 0, height := 0, prompt := c.prompt, imageData := none,
    generating := c.prompt ≠ "", inputMode := c.prompt = "",
    selectedBtn := 0, textInputValue := "", config := c, err := none,
    imageRendered := false, needsImageClear := false, isRegenerating := false }

/-- The terminal font cell size, as answered by the external
`termimg.QueryTerminalFeatures()`. -/
structure TermFeatures where
  fontWidth : ℤ
  fontHeight : ℤ
deriving DecidableEq, Repr

/-- Native pixel bounds converted to cell units: each dimension is divided by
the font cell size and rounded up (`math.Ceil`). -/
def nativeCells (pxW pxH fw fh : ℤ) : ℤ × ℤ :=
  (⌈(pxW : ℚ) / (fw : ℚ)⌉, ⌈(pxH : ℚ) / (fh : ℚ)⌉)

/-- The scaling step shared by `viewImageWithControls` and
`viewImageOptimized`: when the native cell size exceeds the available area in
either dimension, both dimensions are multiplied by the smaller of the two
bound ratios and converted back with Go's `int(...)`; otherwise the native
size is used unchanged (never upscaled).  The `float64` arithmetic of the
source is modelled exactly over `ℚ`. -/
def scaleToFit (origW origH maxW maxH : ℤ) : ℤ × ℤ :=
  if origW > maxW ∨ origH > maxH then
    let wq : ℚ := (maxW : ℚ) / (origW : ℚ)
    let hq : ℚ := (maxH : ℚ) / (origH : ℚ)
    let r := min wq hq
    (goTrunc ((origW : ℚ) * r), goTrunc ((origH : ℚ) * r))
  else (origW, origH)

/-- The image frame of a Displaying render: target cell size, top-left cell,
whether a terminal image-clear must precede the draw, and the row of the
controls band. -/
structure ImageFrame where
  targetW : ℤ
  targetH : ℤ
  imageX : ℤ
  imageY : ℤ
  mustClearFirst : Bool
  controlsY : ℤ
deriving DecidableEq, Repr

/-- The frame description produced by `View`: which panel is drawn. -/
inductive Panel where
  | initializing
  | errorPanel (msg : String)
  | promptEntry
  | loading (message : String)
  | emptyFrame
  | imageDecodeError
  | imageWithControls (fr : ImageFrame)
  | controlsOnly
deriving DecidableEq, Repr

/-- The loading panel's message selection in `loadingView`: the default text,
overridden when `imageData` is the `nil` slice and the prompt is non-empty. -/
def loadingMessage (m : NewModel) : String :=
  if m.imageData = none ∧ m.prompt ≠ "" then "Regenerating image..."
  else "Generating your image..."

/-- The `viewImageWithControls` render at the frame-description level.
`decode` is the external `termimg.From` image decoder, yielding the native
pixel bounds; `tf` is the queried font cell size.  Layout constants are the
source's: controls band height 8, title height 1, two extra margin rows, four
columns of horizontal padding. -/
def viewImageWithControls (m : NewModel) (tf : TermFeatures)
    (decode : List ℕ → Option (ℤ × ℤ)) : Panel :=
  match m.imageData with
  | none => Panel.emptyFrame
  | some b =>
      match decode b with
      | none => Panel.imageDecodeError
      | some (pxW, pxH) =>
          let controlsHeight : ℤ := 8
          let titleHeight : ℤ := 1
          let availableHeight := m.height - controlsHeight - titleHeight - 2
          let maxW := m.width - 4
          let maxH := availableHeight
          let oc := nativeCells pxW pxH tf.fontWidth tf.fontHeight
          let t := scaleToFit oc.1 oc.2 maxW maxH
          Panel.imageWithControls
            { targetW := t.1, targetH := t.2,
              imageX := goDiv (m.width - t.1) 2 + 1,
              imageY := titleHeight + 3,
              mustClearFirst := m.needsImageClear,
              controlsY := m.height - controlsHeight + 2 }

/-- The `View` method of `newModel` at the frame-description level, in the
source's branch order: initializing, error panel, prompt entry, loading panel,
image with controls, controls only. -/
def view (m : NewModel) (tf : TermFeatures)
    (decode : List ℕ → Option (ℤ × ℤ)) : Panel :=
  if m.width = 0 then Panel.initializing
  else if m.err ≠ none then Panel.errorPanel (m.err.getD "")
  else if m.inputMode then Panel.promptEntry
  else if m.generating then Panel.loading (loadingMessage m)
  else
    match m.imageData with
    | some _ => viewImageWithControls m tf decode
    | none => Panel.controlsOnly

/-- The `config` struct of the earlier source version (flag values only). -/
structure Config5 where
  displayProtocol : String
  aspect : String
  outputFormat : String
  outputFolder : String
deriving DecidableEq, Repr

/-- The `model` struct of the earlier source version, which edits the prompt
string directly on key events. -/
structure Model5 where
  prompt : String
  image : Option (List ℕ)
  err : Option String
  inputMode : Bool
  cursorPos : ℤ
  buttonMode : ℤ
  textInputValue : String
  width : ℤ
  height : ℤ
  generating : Bool
  config : Config5
  saved : String
  regenerating : Bool
deriving DecidableEq, Repr

/-- Commands of the earlier version's `Update`. -/
inductive Cmd5 where
  | none
  | quit
  | genImage (prompt : String)
  | spinnerTick
  | passthrough
  | batch (cs : List Cmd5)

/-- The code after the message switch in the earlier `Update`: text input and
spinner are always updated (their library commands abstracted as
`passthrough`). -/
def after5 (m : Model5) (msg : Msg) : Model5 × Cmd5 :=
  ({ m with textInputValue := textInputValueUpdate m.textInputValue msg },
   Cmd5.passthrough)

/-- The `Update` method of the earlier `model`.  `save` is the result of the
external `saveImage` call (filename, optional error), relevant only to the
download action.  Keys other than the handled ones are appended verbatim to the
prompt while in input mode (the `default` case). -/
def update5 (save : String × Option String) (m : Model5) (msg : Msg) :
    Model5 × Cmd5 :=
  match msg with
  | .windowSize w h => after5 { m with width := w, height := h } msg
  | .key s =>
      if s = "ctrl+c" ∨ s = "q" then (m, .quit)
      else if s = "enter" then
        if m.inputMode then
          ({ m with prompt := m.textInputValue, inputMode := false,
                    generating := true },
           .batch [.genImage m.textInputValue, .spinnerTick])
        else if m.buttonMode = 1 then
          ({ m with saved := save.1, err := save.2 }, .quit)
        else if m.buttonMode = 2 then
          ({ m with regenerating := true, generating := true, image := none },
           .batch [.genImage m.prompt, .spinnerTick])
        else after5 m msg
      else if s = "tab" then
        after5
          (if ¬m.inputMode then { m with buttonMode := goMod (m.buttonMode + 1) 3 }
           else m) msg
      else if s = "backspace" then
        after5
          (if m.inputMode ∧ m.prompt.length > 0 then
            { m with prompt := m.prompt.dropRight 1, cursorPos := m.cursorPos - 1 }
           else m) msg
      else
        after5
          (if m.inputMode then
            { m with prompt := m.prompt ++ s, cursorPos := m.cursorPos + 1 }
           else m) msg
  | .imageBytes b =>
      ({ m with image := some b, generating := false, regenerating := false },
       .none)
  | .errMsg e => ({ m with err := some e }, .quit)
  | _ => after5 m msg

/-- The `initialModel` constructor of the earlier version. -/
def initialModel5 (c : Config5) : Model5 :=
  { prompt := "", image := none, err := none, inputMode := true, cursorPos := 0,
    buttonMode := 0, textInputValue := "", width := 0, height := 0,
    generating := false, config := c, saved := "", regenerating := false }

/-- Sample flag configuration (schnell model, png, 1:1, no token flag). -/
def cfg0 : Config := ⟨"", "", "schnell", "1:1", "png", ""⟩

/-- Sample flag configuration of the earlier version. -/
def cfg5 : Config5 := ⟨"kitty", "1:1", "png", ""⟩

/-- Sample session in the Displaying state: a 100×50 viewport and a generated
image present. -/
def mDisp : NewModel :=
  { width := 100, height := 50, prompt := "fox", imageData := some [9],
    generating := false, inputMode := false, selectedBtn := 0,
    textInputValue := "", config := cfg0, err := none, imageRendered := true,
    needsImageClear := false, isRegenerating := false }

/-- Sample decoder: every byte buffer decodes to 800×800 pixel bounds. -/
def dec800 : List ℕ → Option (ℤ × ℤ) := fun _ => some (800, 800)

/-- Sample terminal with an 8×16 pixel font cell. -/
def tfSmall : TermFeatures := ⟨8, 16⟩

/-- Sample terminal with a 16×32 pixel font cell. -/
def tfLarge : TermFeatures := ⟨16, 32⟩

/-- Session after activating Regenerate from `mDisp`: job A is in flight. -/
def regen1 : NewModel := (update none mDisp (Msg.key "enter")).model

/-- Session after activating Regenerate a second time before job A completed:
job B is in flight and job A is superseded (stale). -/
def regen2 : NewModel := (update none regen1 (Msg.key "enter")).model

/-- Session after the stale job A's completion bytes `[1, 2, 3]` arrive in the
superseded situation `regen2`. -/
def afterStale : NewModel := (update none regen2 (Msg.imageBytes [1, 2, 3])).model

/-- Sample session in input mode with "fox" typed into the text input. -/
def mInput : NewModel := { newInitialModel cfg0 with textInputValue := "fox" }

/-- Session right after submitting the typed prompt: a first generation, no
image was ever present. -/
def firstGen : NewModel := (update none mInput (Msg.key "enter")).model

/-- The request `generateImage` builds for prompt "p" under `cfg0`. -/
def reqP : RequestSpec :=
  ⟨fluxSchnellURL,
   [("prompt", Jval.str "p"), ("aspect_ratio", Jval.str "1:1"),
    ("output_format", Jval.str "png"), ("output_quality", Jval.num 100),
    ("disable_safety_checker", Jval.boolean true)]⟩

/-- Sample non-terminal poll response. -/
def pendResp : RespModel :=
  ⟨"processing", "", OutputVal.other, "https://api.replicate.com/poll/1"⟩

/-- Sample terminal-success response carrying a single output URL. -/
def succResp : RespModel :=
  ⟨"succeeded", "", OutputVal.str "https://img.example/out.png",
   "https://api.replicate.com/poll/1"⟩

/-- Sample network: the submit response and the first poll are non-terminal,
the second poll succeeds, and the image GET serves two bytes. -/
def oWitness : Oracle :=
  ⟨pendResp, fun n => if n = 0 then pendResp else succResp, fun _ => [1, 2]⟩

lemma chainFrom_add_one (polls : ℕ → RespModel) :
    ∀ (j i : ℕ) (r : RespModel), chainFrom polls i r (j + 1) = polls (i + j) := by
  intro j
  induction j with
  | zero => intro i r; rfl
  | succ j ih =>
      intro i r
      show chainFrom polls (i + 1) (polls i) (j + 1) = polls (i + (j + 1))
      rw [ih (i + 1) (polls i)]
      congr 1
      omega

lemma chainFrom_seqResp (o : Oracle) :
    ∀ j, chainFrom o.poll 0 o.submit j = seqResp o j := by
  intro j
  cases j with
  | zero => rfl
  | succ j => rw [chainFrom_add_one]; simp [seqResp]

lemma pollLoopAux_terminal (polls : ℕ → RespModel) (fuel i : ℕ) (r : RespModel)
    (h : isTerminalStatus r.status = true) :
    pollLoopAux polls fuel i r = some (r, i) := by
  cases fuel <;> simp [pollLoopAux, h]

lemma pollLoopAux_first (polls : ℕ → RespModel) :
    ∀ (k i fuel : ℕ) (r : RespModel),
      (∀ j < k, isTerminalStatus (chainFrom polls i r j).status = false) →
      isTerminalStatus (chainFrom polls i r k).status = true →
      k ≤ fuel →
      pollLoopAux polls fuel i r = some (chainFrom polls i r k, i + k) := by
  intro k
  induction k with
  | zero =>
      intro i fuel r _ hterm _
      simpa using pollLoopAux_terminal polls fuel i r hterm
  | succ k ih =>
      intro i fuel r hpre hterm hfuel
      have hr : isTerminalStatus r.status = false := hpre 0 (Nat.succ_pos k)
      obtain ⟨f, rfl⟩ : ∃ f, fuel = f + 1 := ⟨fuel - 1, by omega⟩
      simp only [pollLoopAux]
      rw [if_neg (by simp [hr])]
      have h2 := ih (i + 1) f (polls i)
        (fun j hj => hpre (j + 1) (by omega)) hterm (by omega)
      rw [h2, show i + 1 + k = i + (k + 1) from by omega]
      rfl

lemma pollLoopAux_none (polls : ℕ → RespModel) :
    ∀ (fuel i : ℕ) (r : RespModel),
      (∀ j ≤ fuel, isTerminalStatus (chainFrom polls i r j).status = false) →
      pollLoopAux polls fuel i r = none := by
  intro fuel
  induction fuel with
  | zero =>
      intro i r h
      have hr : isTerminalStatus r.status = false := h 0 (le_refl 0)
      simp [pollLoopAux, hr]
  | succ f ih =>
      intro i r h
      have hr : isTerminalStatus r.status = false := h 0 (Nat.zero_le _)
      simp only [pollLoopAux]
      rw [if_neg (by simp [hr])]
      exact ih (i + 1) (polls i) (fun j hj => h (j + 1) (by omega))

/-- C1 (counterexample): a stale job completion is not discarded.  From the
Displaying session `mDisp`, Regenerate is activated twice (`regen1`, `regen2`):
the job dispatched at `regen1` is superseded at `regen2`, so its completion —
arriving with the dispatch-time mode/epoch of `regen1`, which no longer matches
the current session — is stale.  Processing it (`afterStale`) nevertheless
writes its bytes into the image field and flips the generating mode: the
session does not equal its state immediately before the completion arrived. -/
theorem c1_counterexample :
    afterStale.imageData ≠ regen2.imageData ∧
    afterStale.generating ≠ regen2.generating ∧
    regen2.imageData = some [] ∧ regen2.generating = true ∧
    afterStale.imageData = some [1, 2, 3] ∧ afterStale.generating = false := by
  decide

/-- C1 (amended): the completion handler performs no dispatch-token comparison
at all: every image-bytes completion is applied unconditionally — the image
field is set to the delivered bytes, generating is cleared, a terminal
image-clear is forced and the selection resets — so a stale (superseded)
result is written too and the last completion to arrive wins. -/
theorem c1_amended (saveErr : Option String) (m : NewModel) (b : List ℕ) :
    update saveErr m (Msg.imageBytes b) =
      ⟨{ m with imageData := some b, generating := false, needsImageClear := true,
                selectedBtn := 0 }, Cmd.none, []⟩ := rfl

/-- C2: for every valid prompt/aspect/format combination the request body holds
exactly the prompt, aspect_ratio, output_format and output_quality 100 fields,
plus the variant default: schnell adds disable_safety_checker true, pro adds
safety_tolerance 5 (its maximum), dev adds neither. -/
theorem c2_request_body (c : Config) (p : String)
    (hp : p ≠ "") (ha : c.aspect ≠ "") (hf : c.outputFormat ≠ "") :
    (c.fluxModel = "schnell" →
      buildRequest p c = .ok ⟨fluxSchnellURL,
        [("prompt", Jval.str p), ("aspect_ratio", Jval.str c.aspect),
         ("output_format", Jval.str c.outputFormat),
         ("output_quality", Jval.num 100),
         ("disable_safety_checker", Jval.boolean true)]⟩) ∧
    (c.fluxModel = "pro" →
      buildRequest p c = .ok ⟨fluxProURL,
        [("prompt", Jval.str p), ("aspect_ratio", Jval.str c.aspect),
         ("output_format", Jval.str c.outputFormat),
         ("output_quality", Jval.num 100),
         ("safety_tolerance", Jval.num 5)]⟩) ∧
    (c.fluxModel = "dev" →
      buildRequest p c = .ok ⟨fluxDevURL,
        [("prompt", Jval.str p), ("aspect_ratio", Jval.str c.aspect),
         ("output_format", Jval.str c.outputFormat),
         ("output_quality", Jval.num 100)]⟩) := by
  refine ⟨fun hm => ?_, fun hm => ?_, fun hm => ?_⟩ <;>
    simp [buildRequest, hm, marshalInput, hp, ha, hf]

/-- C2 (witness): the scenario prompt "a red fox", schnell model, png format,
1:1 aspect yields the documented body. -/
theorem c2_request_body_witness :
    buildRequest "a red fox" cfg0 = .ok ⟨fluxSchnellURL,
      [("prompt", Jval.str "a red fox"), ("aspect_ratio", Jval.str "1:1"),
       ("output_format", Jval.str "png"), ("output_quality", Jval.num 100),
       ("disable_safety_checker", Jval.boolean true)]⟩ :=
  (c2_request_body cfg0 "a red fox" (by decide) (by decide) (by decide)).1 rfl

/-- C3: with no API-token flag value and an empty environment token, the driver
returns the configuration failure immediately: zero polls and an empty network
event list — no submit, no poll, no fetch. -/
theorem c3_no_credential (prompt : String) (c : Config) (envKey : String)
    (o : Oracle) (fuel : ℕ) (hc : c.apiToken = "") (he : envKey = "") :
    generateImageRun prompt c envKey o fuel =
      { outcome := GenOutcome.failure ("replicate API token not provided. " ++
          "Use --api-token flag or set REPLICATE_API_KEY environment variable"),
        polls := 0, events := [] } := by
  simp [generateImageRun, hc, he]

/-- C3 (witness): the empty-credential scenario at a concrete input. -/
theorem c3_no_credential_witness :
    generateImageRun "a red fox" cfg0 "" oWitness 3 =
      { outcome := GenOutcome.failure ("replicate API token not provided. " ++
          "Use --api-token flag or set REPLICATE_API_KEY environment variable"),
        polls := 0, events := [] } :=
  c3_no_credential "a red fox" cfg0 "" oWitness 3 rfl rfl

/-- C6: activating the Primary (regenerate) action while an image is displayed
clears the image buffer immediately (to the empty non-nil buffer), forces a
terminal image-clear before the next draw, performs the immediate
`termimg.ClearAll` effect, marks the session as regenerating/generating, keeps
the prompt field unchanged, and dispatches a new generation job with that same
prompt. -/
theorem c6_regenerate (saveErr : Option String) (m : NewModel) (b : List ℕ)
    (hin : m.inputMode = false) (himg : m.imageData = some b)
    (hsel : m.selectedBtn = 0) :
    update saveErr m (Msg.key "enter") =
      ⟨{ m with imageData := some [], needsImageClear := true,
                isRegenerating := true, generating := true },
       Cmd.batch [Cmd.clearScreen, Cmd.genImage m.prompt m.config, Cmd.spinnerTick],
       [Effect.clearAllImages]⟩ := by
  simp [update, hin, himg, hsel]

/-- C6 (witness): regenerate from the concrete Displaying session `mDisp`. -/
theorem c6_regenerate_witness :
    update none mDisp (Msg.key "enter") =
      ⟨{ mDisp with imageData := some [], needsImageClear := true,
                    isRegenerating := true, generating := true },
       Cmd.batch [Cmd.clearScreen, Cmd.genImage "fox" cfg0, Cmd.spinnerTick],
       [Effect.clearAllImages]⟩ :=
  c6_regenerate none mDisp [9] (by decide) (by decide) (by decide)

/-- C7 (code evidence): the loading message is inverted.  After activating
Regenerate from a Displaying session (an image was present before the
transition) the state `regen1` is generating and flagged `isRegenerating`, yet
`loadingView` shows the first-generation message, because the cleared buffer is
the non-nil empty slice; after submitting a typed prompt (`firstGen`, no image
was ever present) it shows the regeneration message, because the buffer is
still nil and the prompt is non-empty. -/
theorem c7_loading_message_bug :
    (regen1.generating = true ∧ regen1.isRegenerating = true ∧
      regen1.imageData = some [] ∧
      loadingMessage regen1 = "Generating your image...") ∧
    (firstGen.generating = true ∧ firstGen.isRegenerating = false ∧
      firstGen.imageData = none ∧
      loadingMessage firstGen = "Regenerating image...") := by
  decide

/-- C10 (counterexample): the prompt of the earlier model starts without any
'q', yet one keyboard event — the ctrl+q key, whose string is not "q" and not
"ctrl+c" — falls into the default input-mode case and is appended verbatim, so
the interactively typed prompt then contains the letter q. -/
theorem c10_counterexample :
    (initialModel5 cfg5).prompt.data = [] ∧
    (update5 ("", none) (initialModel5 cfg5) (Msg.key "ctrl+q")).1.prompt
      = "ctrl+q" ∧
    'q' ∈ ((update5 ("", none) (initialModel5 cfg5)
      (Msg.key "ctrl+q")).1.prompt).data := by
  decide

/-- C10 (amended): a key event whose string is exactly "q" or "ctrl+c" returns
the quit command with the model unchanged, in every mode of both program
versions — so the plain q key itself never reaches the prompt; but key events
whose string merely contains a q (such as ctrl+q) are appended verbatim to the
prompt in input mode, so an interactively typed prompt can contain the
letter q. -/
theorem c10_amended (save : String × Option String) (m5 : Model5)
    (saveErr : Option String) (m : NewModel) :
    update5 save m5 (Msg.key "q") = (m5, Cmd5.quit) ∧
    update5 save m5 (Msg.key "ctrl+c") = (m5, Cmd5.quit) ∧
    update saveErr m (Msg.key "q") = ⟨m, Cmd.quit, []⟩ ∧
    update saveErr m (Msg.key "ctrl+c") = ⟨m, Cmd.quit, []⟩ :=
  ⟨rfl, rfl, rfl, rfl⟩

/-- C4: a resize event keeps the session in the same mode — input mode,
generating flag, error, image, prompt, selection and the regeneration flag are
all unchanged — updates only the stored viewport, and sets the clear flag; and
whenever the resized session then renders an image frame, that frame carries
`mustClearFirst = true`, so a terminal image-clear precedes the redraw even
with unchanged image bytes. -/
theorem c4_resize (saveErr : Option String) (m : NewModel) (w h : ℤ)
    (tf : TermFeatures) (decode : List ℕ → Option (ℤ × ℤ)) :
    ((update saveErr m (Msg.windowSize w h)).model.inputMode = m.inputMode ∧
     (update saveErr m (Msg.windowSize w h)).model.generating = m.generating ∧
     (update saveErr m (Msg.windowSize w h)).model.err = m.err ∧
     (update saveErr m (Msg.windowSize w h)).model.imageData = m.imageData ∧
     (update saveErr m (Msg.windowSize w h)).model.prompt = m.prompt ∧
     (update saveErr m (Msg.windowSize w h)).model.selectedBtn = m.selectedBtn ∧
     (update saveErr m (Msg.windowSize w h)).model.isRegenerating = m.isRegenerating ∧
     (update saveErr m (Msg.windowSize w h)).model.width = w ∧
     (update saveErr m (Msg.windowSize w h)).model.height = h ∧
     (update saveErr m (Msg.windowSize w h)).model.needsImageClear = true) ∧
    (∀ (b : List ℕ) (pxW pxH : ℤ), w ≠ 0 → m.err = none → m.inputMode = false →
      m.generating = false → m.imageData = some b → decode b = some (pxW, pxH) →
      ∃ fr : ImageFrame,
        view (update saveErr m (Msg.windowSize w h)).model tf decode =
          Panel.imageWithControls fr ∧ fr.mustClearFirst = true) := by
  constructor
  · cases hin : m.inputMode <;>
      simp [update, afterSwitch, textInputValueUpdate, hin]
  · intro b pxW pxH hw he hi hg hd hdec
    have hm' : (update saveErr m (Msg.windowSize w h)).model =
        { m with width := w, height := h, imageRendered := false,
                 needsImageClear := true } := by
      simp [update, afterSwitch, textInputValueUpdate, hi]
    rw [hm']
    simp [view, viewImageWithControls, hw, he, hi, hg, hd, hdec]

/-- C4 (witness): resizing the concrete Displaying session and rendering with
the concrete decoder and font produces an image frame that must clear first. -/
theorem c4_resize_witness :
    (update none mDisp (Msg.windowSize 100 50)).model.prompt = "fox" ∧
    (update none mDisp (Msg.windowSize 100 50)).model.needsImageClear = true ∧
    ∃ fr : ImageFrame,
      view (update none mDisp (Msg.windowSize 100 50)).model tfSmall dec800 =
        Panel.imageWithControls fr ∧ fr.mustClearFirst = true :=
  ⟨(c4_resize none mDisp 100 50 tfSmall dec800).1.2.2.2.2.1,
   (c4_resize none mDisp 100 50 tfSmall dec800).1.2.2.2.2.2.2.2.2.2,
   (c4_resize none mDisp 100 50 tfSmall dec800).2 [9] 800 800
     (by decide) rfl rfl rfl rfl rfl⟩

/-- C5: the native cell size of an image with positive pixel bounds and a
positive font cell is positive in both dimensions (`nativeCells`, the
rounded-up pixel-to-cell conversion); and for every positive native cell size
`ow × oh` and non-negative available area `maxW × maxH`, the scaling step
`scaleToFit` returns the native size unchanged when it fits (no upscaling),
and otherwise scales both dimensions by the single ratio
`min (maxW / ow) (maxH / oh)`, so that the target fits the available area and
each target dimension is within one cell of the exactly aspect-preserving
scaled value. -/
theorem c5_scaling (ow oh maxW maxH : ℤ)
    (how : 0 < ow) (hoh : 0 < oh) (hmw : 0 ≤ maxW) (hmh : 0 ≤ maxH) :
    (∀ pxW pxH fw fh : ℤ, 0 < pxW → 0 < pxH → 0 < fw → 0 < fh →
      0 < (nativeCells pxW pxH fw fh).1 ∧ 0 < (nativeCells pxW pxH fw fh).2) ∧
    (ow ≤ maxW ∧ oh ≤ maxH → scaleToFit ow oh maxW maxH = (ow, oh)) ∧
    (maxW < ow ∨ maxH < oh →
      scaleToFit ow oh maxW maxH =
        (⌊(ow : ℚ) * min ((maxW : ℚ) / (ow : ℚ)) ((maxH : ℚ) / (oh : ℚ))⌋,
         ⌊(oh : ℚ) * min ((maxW : ℚ) / (ow : ℚ)) ((maxH : ℚ) / (oh : ℚ))⌋) ∧
      (scaleToFit ow oh maxW maxH).1 ≤ maxW ∧
      (scaleToFit ow oh maxW maxH).2 ≤ maxH ∧
      (ow : ℚ) * min ((maxW : ℚ) / (ow : ℚ)) ((maxH : ℚ) / (oh : ℚ)) - 1 <
        ((scaleToFit ow oh maxW maxH).1 : ℚ) ∧
      (oh : ℚ) * min ((maxW : ℚ) / (ow : ℚ)) ((maxH : ℚ) / (oh : ℚ)) - 1 <
        ((scaleToFit ow oh maxW maxH).2 : ℚ)) := by
  refine ⟨?_, ?_, ?_⟩
  · intro pxW pxH fw fh hpw hph hfw hfh
    constructor
    · exact Int.ceil_pos.mpr (div_pos (by exact_mod_cast hpw) (by exact_mod_cast hfw))
    · exact Int.ceil_pos.mpr (div_pos (by exact_mod_cast hph) (by exact_mod_cast hfh))
  · rintro ⟨h1, h2⟩
    have hcond : ¬(ow > maxW ∨ oh > maxH) := by push_neg; exact ⟨h1, h2⟩
    rw [scaleToFit, if_neg hcond]
  · intro hover
    have hcond : ow > maxW ∨ oh > maxH := by
      rcases hover with hh | hh
      exacts [Or.inl hh, Or.inr hh]
    have howq : (0 : ℚ) < (ow : ℚ) := by exact_mod_cast how
    have hohq : (0 : ℚ) < (oh : ℚ) := by exact_mod_cast hoh
    have hr0 : 0 ≤ min ((maxW : ℚ) / (ow : ℚ)) ((maxH : ℚ) / (oh : ℚ)) :=
      le_min (div_nonneg (by exact_mod_cast hmw) howq.le)
        (div_nonneg (by exact_mod_cast hmh) hohq.le)
    have hW0 : 0 ≤ (ow : ℚ) * min ((maxW : ℚ) / (ow : ℚ)) ((maxH : ℚ) / (oh : ℚ)) :=
      mul_nonneg howq.le hr0
    have hH0 : 0 ≤ (oh : ℚ) * min ((maxW : ℚ) / (ow : ℚ)) ((maxH : ℚ) / (oh : ℚ)) :=
      mul_nonneg hohq.le hr0
    have hsf : scaleToFit ow oh maxW maxH =
        (⌊(ow : ℚ) * min ((maxW : ℚ) / (ow : ℚ)) ((maxH : ℚ) / (oh : ℚ))⌋,
         ⌊(oh : ℚ) * min ((maxW : ℚ) / (ow : ℚ)) ((maxH : ℚ) / (oh : ℚ))⌋) := by
      rw [scaleToFit, if_pos hcond]
      simp only [goTrunc, if_pos hW0, if_pos hH0]
    have hfit1 : ⌊(ow : ℚ) * min ((maxW : ℚ) / (ow : ℚ)) ((maxH : ℚ) / (oh : ℚ))⌋ ≤ maxW := by
      have hle : (ow : ℚ) * min ((maxW : ℚ) / (ow : ℚ)) ((maxH : ℚ) / (oh : ℚ)) ≤ (maxW : ℚ) := by
        calc (ow : ℚ) * min ((maxW : ℚ) / (ow : ℚ)) ((maxH : ℚ) / (oh : ℚ))
            ≤ (ow : ℚ) * ((maxW : ℚ) / (ow : ℚ)) :=
              mul_le_mul_of_nonneg_left (min_le_left _ _) howq.le
          _ = (maxW : ℚ) := by field_simp
      calc ⌊(ow : ℚ) * min ((maxW : ℚ) / (ow : ℚ)) ((maxH : ℚ) / (oh : ℚ))⌋
          ≤ ⌊(maxW : ℚ)⌋ := Int.floor_le_floor hle
        _ = maxW := Int.floor_intCast maxW
    have hfit2 : ⌊(oh : ℚ) * min ((maxW : ℚ) / (ow : ℚ)) ((maxH : ℚ) / (oh : ℚ))⌋ ≤ maxH := by
      have hle : (oh : ℚ) * min ((maxW : ℚ) / (ow : ℚ)) ((maxH : ℚ) / (oh : ℚ)) ≤ (maxH : ℚ) := by
        calc (oh : ℚ) * min ((maxW : ℚ) / (ow : ℚ)) ((maxH : ℚ) / (oh : ℚ))
            ≤ (oh : ℚ) * ((maxH : ℚ) / (oh : ℚ)) :=
              mul_le_mul_of_nonneg_left (min_le_right _ _) hohq.le
          _ = (maxH : ℚ) := by field_simp
      calc ⌊(oh : ℚ) * min ((maxW : ℚ) / (ow : ℚ)) ((maxH : ℚ) / (oh : ℚ))⌋
          ≤ ⌊(maxH : ℚ)⌋ := Int.floor_le_floor hle
        _ = maxH := Int.floor_intCast maxH
    refine ⟨hsf, ?_, ?_, ?_, ?_⟩
    · rw [hsf]; exact hfit1
    · rw [hsf]; exact hfit2
    · rw [hsf]; exact Int.sub_one_lt_floor _
    · rw [hsf]; exact Int.sub_one_lt_floor _

/-- C5 (witness): a 100×38-cell native image fits a 120×40 area and is kept at
native size; a 100×50-cell native image in a 96×39 area is scaled by the
common ratio and fits; and 800×600 pixel bounds at an 8×16 font give positive
native cells. -/
theorem c5_scaling_witness :
    scaleToFit 100 38 120 40 = (100, 38) ∧
    scaleToFit 100 50 96 39 =
      (⌊(100 : ℚ) * min ((96 : ℚ) / (100 : ℚ)) ((39 : ℚ) / (50 : ℚ))⌋,
       ⌊(50 : ℚ) * min ((96 : ℚ) / (100 : ℚ)) ((39 : ℚ) / (50 : ℚ))⌋) ∧
    (scaleToFit 100 50 96 39).1 ≤ 96 ∧ (scaleToFit 100 50 96 39).2 ≤ 39 ∧
    (0 < (nativeCells 800 600 8 16).1 ∧ 0 < (nativeCells 800 600 8 16).2) :=
  ⟨(c5_scaling 100 38 120 40 (by decide) (by decide) (by decide) (by decide)).2.1
      ⟨by decide, by decide⟩,
   ((c5_scaling 100 50 96 39 (by decide) (by decide) (by decide) (by decide)).2.2
      (Or.inl (by decide))).1,
   ((c5_scaling 100 50 96 39 (by decide) (by decide) (by decide) (by decide)).2.2
      (Or.inl (by decide))).2.1,
   ((c5_scaling 100 50 96 39 (by decide) (by decide) (by decide) (by decide)).2.2
      (Or.inl (by decide))).2.2.1,
   (c5_scaling 100 38 120 40 (by decide) (by decide) (by decide) (by decide)).1
      800 600 8 16 (by decide) (by decide) (by decide) (by decide)⟩

/-- C8 (counterexample): the render function's output is not a function of the
session alone — the same Displaying session renders different frames under two
different terminal font cell sizes, because `View` reads the terminal feature
query (`termimg.QueryTerminalFeatures`) while computing the target image size. -/
theorem c8_counterexample : view mDisp tfSmall dec800 ≠ view mDisp tfLarge dec800 := by
  have h1 : view mDisp tfSmall dec800 =
      Panel.imageWithControls ⟨78, 39, 12, 4, false, 44⟩ := by
    norm_num [view, viewImageWithControls, mDisp, dec800, tfSmall, nativeCells,
      scaleToFit, min_def, goTrunc, goDiv, cfg0]
    decide
  have h2 : view mDisp tfLarge dec800 =
      Panel.imageWithControls ⟨50, 25, 26, 4, false, 44⟩ := by
    norm_num [view, viewImageWithControls, mDisp, dec800, tfLarge, nativeCells,
      scaleToFit, min_def, goTrunc, goDiv, cfg0]
    decide
  rw [h1, h2]
  decide

/-- C8 (amended): the render function is pure and deterministic as a function
of the session value together with its external inputs — the queried terminal
font features and the image decoder: identical sessions, features and decoders
yield identical frames, without mutating the session; but the output does
depend on the terminal feature query, so identical sessions alone do not
suffice. -/
theorem c8_amended (mA mB : NewModel) (tfA tfB : TermFeatures)
    (dA dB : List ℕ → Option (ℤ × ℤ)) (hm : mA = mB) (ht : tfA = tfB)
    (hd : dA = dB) : view mA tfA dA = view mB tfB dB := by
  rw [hm, ht, hd]

/-- C8 (witness): determinism at a concrete session, feature set and decoder. -/
theorem c8_amended_witness : view mDisp tfSmall dec800 = view mDisp tfSmall dec800 :=
  c8_amended mDisp mDisp tfSmall tfSmall dec800 dec800 rfl rfl rfl

/-- C9: with a usable credential and a valid model, if the response sequence
first becomes terminal at index `k` (index 0 being the submit response), then
for any fuel of at least `k` the driver performs exactly `k` polls, each
preceded by a one-time-unit sleep (recorded in `pollEvents`); on a terminal
"failed" it returns the failure carrying the remote-provided reason; on a
terminal "succeeded" with a string output it fetches that URL's bytes and
returns them; and with insufficient fuel — while the status is still
non-terminal — it never returns a result. -/
theorem c9_poll_loop (prompt : String) (c : Config) (envKey : String)
    (o : Oracle) (req : RequestSpec) (fuel k : ℕ)
    (hkey : (if c.apiToken ≠ "" then c.apiToken else envKey) ≠ "")
    (hreq : buildRequest prompt c = Except.ok req)
    (hpre : ∀ j < k, isTerminalStatus (seqResp o j).status = false)
    (hterm : isTerminalStatus (seqResp o k).status = true)
    (hfuel : k ≤ fuel) :
    (generateImageRun prompt c envKey o fuel).polls = k ∧
    ((seqResp o k).status = "failed" →
      generateImageRun prompt c envKey o fuel =
        { outcome := GenOutcome.failure
            ("image generation failed: " ++ (seqResp o k).errorStr),
          polls := k,
          events := NetEvent.post req.url req.inputFields :: pollEvents o k }) ∧
    (∀ u, (seqResp o k).status = "succeeded" →
      (seqResp o k).output = OutputVal.str u →
      generateImageRun prompt c envKey o fuel =
        { outcome := GenOutcome.imageBytes (o.fetch u),
          polls := k,
          events := (NetEvent.post req.url req.inputFields :: pollEvents o k) ++
            [NetEvent.get u] }) ∧
    (∀ fuel', fuel' < k →
      (generateImageRun prompt c envKey o fuel').outcome = GenOutcome.outOfFuel) := by
  have hchain : ∀ j, chainFrom o.poll 0 o.submit j = seqResp o j := chainFrom_seqResp o
  have hpoll : pollLoopAux o.poll fuel 0 o.submit = some (seqResp o k, k) := by
    have h := pollLoopAux_first o.poll k 0 fuel o.submit
      (fun j hj => by rw [hchain]; exact hpre j hj)
      (by rw [hchain]; exact hterm) hfuel
    rw [hchain] at h
    simpa using h
  refine ⟨?_, ?_, ?_, ?_⟩
  · simp only [generateImageRun, hreq, hpoll]
    rw [if_neg (by simpa using hkey)]
    split <;> simp
    split <;> simp
  · intro hf
    simp only [generateImageRun, hreq, hpoll]
    rw [if_neg (by simpa using hkey)]
    simp [hf]
  · intro u hs hout
    simp only [generateImageRun, hreq, hpoll]
    rw [if_neg (by simpa using hkey)]
    simp [hs, hout, extractOutputURL]
  · intro fuel' hlt
    have hnone : pollLoopAux o.poll fuel' 0 o.submit = none :=
      pollLoopAux_none o.poll fuel' 0 o.submit
        (fun j hj => by rw [hchain]; exact hpre j (by omega))
    simp only [generateImageRun, hreq, hnone]
    rw [if_neg (by simpa using hkey)]

/-- C9 (witness): under the concrete network `oWitness` the status first
becomes terminal (succeeded) at the second poll: with fuel 5 the driver
performs exactly 2 polls and returns the fetched image bytes, and with fuel 1
it yields no result yet. -/
theorem c9_poll_loop_witness :
    (generateImageRun "p" cfg0 "tok" oWitness 5).polls = 2 ∧
    generateImageRun "p" cfg0 "tok" oWitness 5 =
      { outcome := GenOutcome.imageBytes (oWitness.fetch "https://img.example/out.png"),
        polls := 2,
        events := (NetEvent.post reqP.url reqP.inputFields :: pollEvents oWitness 2) ++
          [NetEvent.get "https://img.example/out.png"] } ∧
    (generateImageRun "p" cfg0 "tok" oWitness 1).outcome = GenOutcome.outOfFuel := by
  have h := c9_poll_loop "p" cfg0 "tok" oWitness reqP 5 2
    (by decide) rfl (by decide) (by decide) (by decide)
  exact ⟨h.1, h.2.2.1 "https://img.example/out.png" (by decide) (by decide),
    h.2.2.2 1 (by decide)⟩

end Fluxy
